import Mathlib

/-!
Verification of the automated report generation pipeline
(`src/REPORT_GEN.py`, class `AutomatedReportGenerator`).

The tabular data model is embedded column-major: a `Dataset` is an ordered
list of typed columns, each holding one (possibly null) cell per row, plus
the row count.  Machine floats of the source are modelled as exact
rationals `ℚ`; the Pearson correlation value, which divides by a square
root, lives in `ℝ`.  Stateful methods of the Python class are modelled as
explicit state passing (`Option Dataset` for `self.data`), and fallible
external collaborators (file parsing, chart panel rendering, image
embedding, document writing) are parameters of type `... → Except Unit _`,
so that every failure path of the repository's own control flow is
explicit.
-/

namespace ReportGen

/-- A cell value of the in-memory table: a numeric value or a string
(pandas object dtype). -/
inductive Val where
  | num (q : ℚ)
  | str (s : String)
  deriving DecidableEq

/-- A cell is a value or the null marker (pandas `NaN`/`None`). -/
abbrev Cell := Option Val

/-- Column dtype, as pandas infers it at load time: `numeric` covers
`np.number` dtypes, `object` is the categorical/string dtype, `datetime`
and `other` are the remaining dtypes (selected by neither
`select_dtypes(include=[np.number])` nor `select_dtypes(include=['object'])`). -/
inductive CKind where
  | numeric
  | object
  | datetime
  | other
  deriving DecidableEq, BEq

/-- One typed column of the table: name, dtype, and one cell per row. -/
structure Column where
  name : String
  kind : CKind
  cells : List Cell
  deriving DecidableEq

/-- The in-memory table held in `self.data` after a successful
`load_data`: ordered typed columns plus the row count `len(self.data)`. -/
structure Dataset where
  cols : List Column
  nrows : ℕ
  deriving DecidableEq

/-- Invariant of the data model: every column has exactly one cell per
row. -/
def Dataset.wellFormed (d : Dataset) : Prop :=
  ∀ c ∈ d.cols, c.cells.length = d.nrows

instance (d : Dataset) : Decidable d.wellFormed :=
  inferInstanceAs (Decidable (∀ c ∈ d.cols, c.cells.length = d.nrows))

/-- Null test on a cell (`pd.isnull`). -/
def isNullCell (c : Cell) : Bool := c.isNone

/-- The code's missing-value count, `self.data.isnull().sum().sum()`
(REPORT_GEN.py line 59): per-column null counts, then summed over the
columns. -/
def Dataset.missing_values (d : Dataset) : ℕ :=
  (d.cols.map (fun c => c.cells.countP isNullCell)).sum

/-- The null count of row `i`, read across all columns. -/
def Dataset.rowNullCount (d : Dataset) (i : ℕ) : ℕ :=
  d.cols.countP (fun c => isNullCell (c.cells.getD i none))

/-- The spec's independent missing-value count: scan all rows × columns
and sum the null indicator of each cell. -/
def Dataset.scanMissing (d : Dataset) : ℕ :=
  ∑ i ∈ Finset.range d.nrows, d.rowNullCount i

/-- `self.data.select_dtypes(include=[np.number]).columns`
(REPORT_GEN.py lines 64, 107): the numeric columns, in dataset order. -/
def Dataset.numericCols (d : Dataset) : List Column :=
  d.cols.filter (fun c => c.kind == CKind.numeric)

/-- `self.data.select_dtypes(include=['object']).columns`
(REPORT_GEN.py lines 70, 144): the categorical columns, in dataset
order. -/
def Dataset.categoricalCols (d : Dataset) : List Column :=
  d.cols.filter (fun c => c.kind == CKind.object)

/-- Numeric reading of a cell: `none` for nulls and for non-numeric
values. -/
def cellQ : Cell → Option ℚ
  | some (Val.num q) => some q
  | _ => none

/-- The cells of a column read as optional rationals. -/
def Column.cellsQ (c : Column) : List (Option ℚ) := c.cells.map cellQ

/-- The non-null numeric values of a column. -/
def Column.numVals (c : Column) : List ℚ := c.cellsQ.filterMap id

/-- The non-null values of a column (`dropna`), in row order. -/
def Column.nonNull (c : Column) : List Val := c.cells.filterMap id

/-- `self.data[col].nunique()` (REPORT_GEN.py line 75): number of
distinct non-null values. -/
def Column.nunique (c : Column) : ℕ := c.nonNull.dedup.length

/-- Descending order on (value, count) pairs used by
`value_counts()`: a pair comes before another when its count is at least
as large. -/
def countGE (a b : Val × ℕ) : Prop := b.2 ≤ a.2

instance : DecidableRel countGE := fun a b => inferInstanceAs (Decidable (b.2 ≤ a.2))

instance : IsTotal (Val × ℕ) countGE := ⟨fun a b => le_total b.2 a.2⟩

instance : IsTrans (Val × ℕ) countGE := ⟨fun _ _ _ h1 h2 => le_trans h2 h1⟩

/-- `self.data[col].value_counts()` (REPORT_GEN.py lines 76, 151): the
occurrence count of each distinct non-null value, sorted by count
descending.  (pandas' tie order among equal counts is not relied on by
any claim and is left to the sort.) -/
def Column.valueCounts (c : Column) : List (Val × ℕ) :=
  List.insertionSort countGE (c.nonNull.dedup.map (fun v => (v, c.nonNull.count v)))

/-- `value_counts().head(5)` (REPORT_GEN.py line 76). -/
def Column.topValues (c : Column) : List (Val × ℕ) := c.valueCounts.take 5

/-- `analysis_results['basic_stats']` (REPORT_GEN.py lines 56-61). -/
structure BasicStats where
  total_rows : ℕ
  total_columns : ℕ
  missing_values : ℕ
  data_types : List (String × CKind)
  deriving DecidableEq

/-- One column's entry of `describe()` (REPORT_GEN.py line 66).  Only the
fields a claim touches are modelled: the non-null count and the mean
(`none` when pandas would report `NaN` on an empty column); std and the
quartiles are computed by the external pandas collaborator and are not
needed by any claim. -/
structure NumSummary where
  count : ℕ
  mean : Option ℚ
  deriving DecidableEq

/-- One column's entry of `analysis_results['categorical_summary']`
(REPORT_GEN.py lines 74-77). -/
structure CatSummary where
  unique_values : ℕ
  top_values : List (Val × ℕ)
  deriving DecidableEq

/-- The `self.analysis_results` dictionary after `analyze_data`
(REPORT_GEN.py lines 49-79).  A key that the code only sets inside a
guard is an `Option`, `none` when the guard fails.  `correlations` holds
the index of the correlation matrix (the numeric column names); the
matrix entries themselves are given by `corrEntry` below. -/
structure AnalysisResults where
  basic_stats : BasicStats
  numeric_summary : Option (List (String × NumSummary))
  correlations : Option (List String)
  categorical_summary : Option (List (String × CatSummary))
  deriving DecidableEq

/-- Mean of a list of rationals (0 on the empty list, which the code
never reads because `mean` is `none` there). -/
def qmean (l : List ℚ) : ℚ := l.sum / l.length

/-- The modelled fields of `describe()` for one numeric column. -/
def Column.describe (c : Column) : NumSummary :=
  { count := c.numVals.length
    mean := if c.numVals.length = 0 then none else some (qmean c.numVals) }

/-- The categorical summary of one column (REPORT_GEN.py lines 74-77). -/
def Column.catSummary (c : Column) : CatSummary :=
  { unique_values := c.nunique
    top_values := c.topValues }

/-- `analyze_data` (REPORT_GEN.py lines 49-79).  `none` models the
`return False` on `self.data is None`; otherwise the analysis results
dictionary is produced. -/
def analyze_data : Option Dataset → Option AnalysisResults
  | none => none
  | some d => some
    { basic_stats :=
        { total_rows := d.nrows
          total_columns := d.cols.length
          missing_values := d.missing_values
          data_types := d.cols.map (fun c => (c.name, c.kind)) }
      numeric_summary :=
        if 0 < d.numericCols.length then
          some (d.numericCols.map (fun c => (c.name, c.describe)))
        else none
      correlations :=
        if 0 < d.numericCols.length then
          some (d.numericCols.map (fun c => c.name))
        else none
      categorical_summary :=
        if 0 < d.categoricalCols.length then
          some (d.categoricalCols.map (fun c => (c.name, c.catSummary)))
        else none }

/-- `generate_charts` (REPORT_GEN.py lines 81-167), at the level of the
chart-file list it returns: `[]` when `self.data is None`; otherwise the
overview dashboard always, the correlation matrix when the dataset has
more than one numeric column, and the categorical analysis when it has
at least one categorical column. -/
def generate_charts : Option Dataset → List String
  | none => []
  | some d =>
    let files := ["overview_dashboard"]
    let files := if 1 < d.numericCols.length then files ++ ["correlation_matrix"] else files
    if 0 < d.categoricalCols.length then files ++ ["categorical_analysis"] else files

/-- The panels drawn by `generate_charts`, with the data slice a panel
depends on where a claim needs it: `samplePreview previewRows` carries the
number of rows of the `self.data.head(5)` preview table (the `cellText`
row count at REPORT_GEN.py lines 115-116). -/
inductive PanelSpec where
  | missingHeatmap
  | noMissingText
  | dtypePie
  | numericHist
  | samplePreview (previewRows : ℕ)
  | corrHeatmap
  | catBar (col : String)
  deriving DecidableEq

/-- The four panels of the overview dashboard, in drawing order
(REPORT_GEN.py lines 89-123): missing-value heatmap or its textual
placeholder, dtype pie, numeric histograms (only when a numeric column
exists), and the head-5 sample preview table. -/
def Dataset.overviewPanels (d : Dataset) : List PanelSpec :=
  [if 0 < d.missing_values then PanelSpec.missingHeatmap else PanelSpec.noMissingText,
   PanelSpec.dtypePie]
  ++ (if 0 < d.numericCols.length then [PanelSpec.numericHist] else [])
  ++ [PanelSpec.samplePreview (min d.nrows 5)]

/-- Draw a list of panels with a fallible rendering backend.  The source
has no `try/except` around any panel of `generate_charts`, so the first
failure propagates. -/
def renderAll (render : PanelSpec → Except Unit Unit) : List PanelSpec → Except Unit Unit
  | [] => Except.ok ()
  | p :: ps =>
    match render p with
    | Except.ok _ => renderAll render ps
    | Except.error e => Except.error e

/-- `generate_charts` (REPORT_GEN.py lines 81-167) with the rendering
backend made explicit: panels are drawn in source order, and a panel
exception aborts the whole method (there is no handler), otherwise the
chart-file list is returned as in `generate_charts`. -/
def generate_charts_render (render : PanelSpec → Except Unit Unit) (d : Dataset) :
    Except Unit (List String) :=
  match renderAll render d.overviewPanels with
  | Except.error e => Except.error e
  | Except.ok _ =>
    let files := ["overview_dashboard"]
    match (if 1 < d.numericCols.length then render PanelSpec.corrHeatmap else Except.ok ()) with
    | Except.error e => Except.error e
    | Except.ok _ =>
      let files := if 1 < d.numericCols.length then files ++ ["correlation_matrix"] else files
      if 0 < d.categoricalCols.length then
        match renderAll render ((d.categoricalCols.take 4).map (fun c => PanelSpec.catBar c.name)) with
        | Except.error e => Except.error e
        | Except.ok _ => Except.ok (files ++ ["categorical_analysis"])
      else Except.ok files

/-- The actual rendering backend at the one input a claim exercises:
matplotlib's `Axes.table` computes `cols = len(cellText[0])` and so
raises `IndexError` when `cellText` is empty, which is what
REPORT_GEN.py lines 115-116 pass when the dataset has zero rows (the
preview `table_data` is the empty `pd.DataFrame()`).  Every other panel
is assumed to render; only the empty-preview failure is exercised by a
claim. -/
def mplRender : PanelSpec → Except Unit Unit
  | PanelSpec.samplePreview 0 => Except.error ()
  | _ => Except.ok ()

/-- A layout block of the report document (the `pdf.cell` /
`pdf.image` calls of `generate_pdf_report`). -/
inductive Block where
  | heading (s : String)
  | text (s : String)
  | kv (k v : String)
  | image (path : String)
  | notice (path : String)
  deriving DecidableEq

/-- A page is its blocks in layout order. -/
abbrev Page := List Block

/-- `os.path.basename(path).replace('.png', '').replace('_', ' ').title()`
(REPORT_GEN.py line 228). -/
def humanize (path : String) : String :=
  " ".intercalate
    (((((path.splitOn "/").getLastD "").replace ".png" "").replace "_" " ").splitOn " "
      |>.map String.capitalize)

/-- The blocks a chart contributes (REPORT_GEN.py lines 222-235): its
humanized title, then the image — or, when `pdf.image` raises, the
textual could-not-be-loaded notice of the `except` branch. -/
def chartBlock (embed : String → Except Unit Unit) (path : String) : List Block :=
  [Block.heading (humanize path)] ++
    (match embed path with
     | Except.ok _ => [Block.image path]
     | Except.error _ => [Block.notice path])

/-- The title page (REPORT_GEN.py lines 179-208): title, timestamp and
generator lines, then the executive summary appended to the same page. -/
def titlePage (res : AnalysisResults) (title : String) : Page :=
  [Block.heading title,
   Block.text "Generated on: <timestamp>",
   Block.text "Generated by: PhantomX256",
   Block.heading "Executive Summary",
   Block.text (toString res.basic_stats.total_rows ++ " rows and " ++
     toString res.basic_stats.total_columns ++ " columns")]

/-- The data-overview blocks opening page 2 (REPORT_GEN.py lines
211-219). -/
def overviewBlocks (res : AnalysisResults) : List Block :=
  [Block.heading "Data Overview",
   Block.kv "Total Rows" (toString res.basic_stats.total_rows),
   Block.kv "Total Columns" (toString res.basic_stats.total_columns),
   Block.kv "Missing Values" (toString res.basic_stats.missing_values)]

/-- The statistical-summary page (REPORT_GEN.py lines 238-256): heading,
then for each of the first 3 numeric columns a subheading and the
mean/std/min/max key-value lines. -/
def statsPage (ns : List (String × NumSummary)) : Page :=
  Block.heading "Statistical Summary" ::
    (ns.take 3).flatMap (fun p =>
      [Block.heading ("Column: " ++ p.1),
       Block.kv "Mean" "<2dp>", Block.kv "Std" "<2dp>",
       Block.kv "Min" "<2dp>", Block.kv "Max" "<2dp>"])

/-- The page structure built by `generate_pdf_report` (REPORT_GEN.py
lines 176-256) before the document is handed to the writer.  Pages are
delimited by the source's `add_page` calls: title page; data-overview
page, which the first chart joins (the loop at line 222 only calls
`add_page` for `i > 0`); one fresh page per subsequent chart; and a
final statistics page exactly when `'numeric_summary'` is present.  The
`os.path.exists` guard of line 223 is modelled as true: the chart files
were written by `generate_charts` in the same run.  FPDF's automatic
overflow page breaks are not modelled: per the layout rules the block
count of every page is bounded (spec §4.4). -/
def generate_pdf_document (embed : String → Except Unit Unit) (res : AnalysisResults)
    (title : String) (charts : List String) : List Page :=
  let statsPages : List Page :=
    match res.numeric_summary with
    | some ns => [statsPage ns]
    | none => []
  match charts with
  | [] => [titlePage res title, overviewBlocks res] ++ statsPages
  | c :: rest =>
    [titlePage res title, overviewBlocks res ++ chartBlock embed c] ++
      rest.map (chartBlock embed) ++ statsPages

/-- Outcome of one `generate_pdf_report` run: the document handed to the
writer (or the propagated `WriteFailure`), and whether the cleanup loop
for the temporary chart files was reached. -/
structure PdfRunResult where
  written : Except Unit (List Page)
  chartsCleaned : Bool

/-- The tail of `generate_pdf_report` (REPORT_GEN.py lines 258-267) with
the document writer explicit: the assembled document is handed to
`pdf.output`, and the temporary chart files are removed by the loop that
follows it.  The source has no `try/finally`, so a writer exception
propagates before the cleanup loop runs. -/
def generate_pdf_report (write : List Page → Except Unit Unit)
    (embed : String → Except Unit Unit) (res : AnalysisResults)
    (title : String) (charts : List String) : PdfRunResult :=
  let doc := generate_pdf_document embed res title charts
  match write doc with
  | Except.ok _ => { written := Except.ok doc, chartsCleaned := true }
  | Except.error e => { written := Except.error e, chartsCleaned := false }

/-- Python `file_path.split('.')` on the character list of the path. -/
def splitOnDot : List Char → List (List Char)
  | [] => [[]]
  | c :: cs =>
    let r := splitOnDot cs
    if c = '.' then [] :: r
    else
      match r with
      | [] => [[c]]
      | g :: gs => (c :: g) :: gs

/-- `file_path.split('.')[-1].lower()` (REPORT_GEN.py line 29). -/
def extLower (path : String) : String :=
  String.mk (((splitOnDot path.toList).getLastD []).map Char.toLower)

/-- The file type after `auto` resolution (REPORT_GEN.py lines 28-29). -/
def resolveType (path ftype : String) : String :=
  if ftype = "auto" then extLower path else ftype

/-- `load_data` (REPORT_GEN.py lines 25-47), with the file reader made
explicit (`parse resolvedType path`, covering `pd.read_csv`,
`pd.read_excel` and the json branch) and `self.data` passed as `st`.
The whole body sits in `try/except Exception`, so every failure —
the `raise ValueError` of the unsupported-type branch as well as any
parse or I/O exception — is caught and turned into `return False`,
leaving `self.data` untouched (the assignment to `self.data` only
happens when the reader returns). -/
def load_data (parse : String → String → Except Unit Dataset)
    (st : Option Dataset) (path ftype : String) : Bool × Option Dataset :=
  let t := resolveType path ftype
  if t = "csv" ∨ t = "xlsx" ∨ t = "xls" ∨ t = "json" then
    match parse t path with
    | Except.ok d => (true, some d)
    | Except.error _ => (false, st)
  else (false, st)

/-- The rows where both columns are non-null (pandas `corr()` computes
each pairwise Pearson coefficient over the jointly non-null rows). -/
def pairedVals : List (Option ℚ) → List (Option ℚ) → List (ℚ × ℚ)
  | some x :: a, some y :: b => (x, y) :: pairedVals a b
  | _ :: a, _ :: b => pairedVals a b
  | _, _ => []

/-- Sum of products of deviations from the mean,
`Σ (xᵢ - x̄) * (yᵢ - ȳ)`: the shared building block of the Pearson
numerator (`sprod xs ys`) and of the two variance terms of its
denominator (`sprod xs xs`, `sprod ys ys`). -/
def sprod (xs ys : List ℚ) : ℚ :=
  ((xs.zip ys).map (fun p => (p.1 - qmean xs) * (p.2 - qmean ys))).sum

/-- Pearson correlation of a list of jointly observed pairs:
`Σ(x-x̄)(y-ȳ) / sqrt(Σ(x-x̄)² * Σ(y-ȳ)²)`.  The square root forces the
value into `ℝ`; everything under it is exact rational arithmetic. -/
noncomputable def corrOf (ps : List (ℚ × ℚ)) : ℝ :=
  ((sprod (ps.map Prod.fst) (ps.map Prod.snd) : ℚ) : ℝ) /
    Real.sqrt (((sprod (ps.map Prod.fst) (ps.map Prod.fst) : ℚ) : ℝ) *
      ((sprod (ps.map Prod.snd) (ps.map Prod.snd) : ℚ) : ℝ))

/-- Pearson correlation of two optional-valued columns, pandas style:
pairwise deletion of nulls, then `corrOf`. -/
noncomputable def corr (a b : List (Option ℚ)) : ℝ := corrOf (pairedVals a b)

/-- Placeholder column for out-of-range indices of `corrEntry`. -/
def defaultCol : Column := ⟨"", CKind.other, []⟩

/-- Entry `(i, j)` of `self.data[numeric_columns].corr()`
(REPORT_GEN.py line 67): Pearson correlation of the `i`-th and `j`-th
numeric columns. -/
noncomputable def corrEntry (d : Dataset) (i j : ℕ) : ℝ :=
  corr (d.numericCols.getD i defaultCol).cellsQ (d.numericCols.getD j defaultCol).cellsQ

/-- Sum of squared deviations of a column's non-null numeric values;
zero exactly when the column has zero variance (or no data). -/
def Column.devSq (c : Column) : ℚ := sprod c.numVals c.numVals

/-- Concrete 2-row dataset with one null cell, witnessing C1. -/
def wData1 : Dataset :=
  ⟨[⟨"x", CKind.numeric, [some (Val.num 1), none]⟩,
    ⟨"y", CKind.object, [some (Val.str "a"), some (Val.str "b")]⟩], 2⟩

/-- Concrete dataset with one categorical column (value "x" twice,
value "y" once), witnessing C4 and the C7 counterexample. -/
def wData4 : Dataset :=
  ⟨[⟨"cat", CKind.object,
     [some (Val.str "x"), some (Val.str "y"), some (Val.str "x")]⟩], 3⟩

/-- The analysis results of `wData4`, spelled out. -/
def wRes4 : AnalysisResults :=
  ⟨⟨3, 1, 0, [("cat", CKind.object)]⟩, none, none,
   some [("cat", ⟨2, [(Val.str "x", 2), (Val.str "y", 1)]⟩)]⟩

/-- The categorical summary of `wData4`'s column, spelled out. -/
def wSum4 : CatSummary := ⟨2, [(Val.str "x", 2), (Val.str "y", 1)]⟩

/-- Concrete dataset with two numeric columns, witnessing C8. -/
def wData8 : Dataset :=
  ⟨[⟨"u", CKind.numeric, [some (Val.num 0), some (Val.num 1)]⟩,
    ⟨"v", CKind.numeric, [some (Val.num 0), some (Val.num 2)]⟩], 2⟩

/-- The empty dataset of end-to-end scenario B: zero rows, three
declared (object-typed) columns. -/
def eData : Dataset :=
  ⟨[⟨"a", CKind.object, []⟩, ⟨"b", CKind.object, []⟩, ⟨"c", CKind.object, []⟩], 0⟩

/-- The analysis results of `eData`, spelled out. -/
def eRes : AnalysisResults :=
  ⟨⟨0, 3, 0, [("a", CKind.object), ("b", CKind.object), ("c", CKind.object)]⟩,
   none, none,
   some [("a", ⟨0, []⟩), ("b", ⟨0, []⟩), ("c", ⟨0, []⟩)]⟩

/-- A minimal analysis-results value for document-assembly statements
that do not depend on the analysis contents. -/
def resA : AnalysisResults := ⟨⟨0, 0, 0, []⟩, none, none, none⟩

lemma countP_eq_sum_range {α : Type*} (p : α → Bool) (dflt : α) (l : List α) :
    l.countP p = ∑ i ∈ Finset.range l.length, (if p (l.getD i dflt) then 1 else 0) := by
  induction l with
  | nil => simp
  | cons a t ih =>
    rw [List.countP_cons, ih, List.length_cons, Finset.sum_range_succ']
    simp

lemma countP_eq_sum_map {α : Type*} (p : α → Bool) (l : List α) :
    l.countP p = (l.map (fun a => if p a then (1 : ℕ) else 0)).sum := by
  induction l with
  | nil => simp
  | cons a t ih =>
    rw [List.countP_cons, ih, List.map_cons, List.sum_cons]
    omega

lemma sum_map_sum_comm {α : Type*} (l : List α) (n : ℕ) (g : α → ℕ → ℕ) :
    (l.map (fun a => ∑ i ∈ Finset.range n, g a i)).sum
      = ∑ i ∈ Finset.range n, (l.map (fun a => g a i)).sum := by
  induction l with
  | nil => simp
  | cons a t ih => simp [ih, Finset.sum_add_distrib]

/-- C1: for every well-formed loaded dataset, the missing-value count
recorded by `analyze_data` (`isnull().sum().sum()`, a per-column count
summed over columns) equals the number of null cells counted by the
independent row-by-row scan over all rows × columns. -/
theorem c1_missing_value_count (d : Dataset) (h : d.wellFormed) :
    d.missing_values = d.scanMissing := by
  unfold Dataset.missing_values Dataset.scanMissing Dataset.rowNullCount
  have h1 : d.cols.map (fun c => c.cells.countP isNullCell)
      = d.cols.map (fun c => ∑ i ∈ Finset.range d.nrows,
          (if isNullCell (c.cells.getD i none) then 1 else 0)) := by
    apply List.map_congr_left
    intro c hc
    rw [countP_eq_sum_range isNullCell none c.cells, h c hc]
  rw [h1, sum_map_sum_comm]
  refine Finset.sum_congr rfl (fun i _ => ?_)
  rw [countP_eq_sum_map]

/-- Closed witness for C1 at a concrete two-column dataset holding one
null cell. -/
theorem c1_missing_value_count_witness :
    wData1.wellFormed ∧ wData1.missing_values = wData1.scanMissing :=
  ⟨by decide, c1_missing_value_count wData1 (by decide)⟩

lemma generate_charts_eq (d : Dataset) :
    generate_charts (some d)
      = ["overview_dashboard"]
        ++ (if 2 ≤ d.numericCols.length then ["correlation_matrix"] else [])
        ++ (if 1 ≤ d.categoricalCols.length then ["categorical_analysis"] else []) := by
  show (let files := ["overview_dashboard"]
        let files := if 1 < d.numericCols.length then files ++ ["correlation_matrix"] else files
        if 0 < d.categoricalCols.length then files ++ ["categorical_analysis"] else files) = _
  have hn : (1 < d.numericCols.length) = (2 ≤ d.numericCols.length) := rfl
  have hc : (0 < d.categoricalCols.length) = (1 ≤ d.categoricalCols.length) := rfl
  simp only [hn, hc]
  split_ifs <;> simp

/-- C2: for every loaded dataset, the chart-file list of
`generate_charts` is exactly the overview dashboard, then the
correlation matrix iff the dataset has at least two numeric columns,
then the categorical analysis iff it has at least one categorical
column.  In particular, with zero numeric and zero categorical columns
the list is `["overview_dashboard"]` alone. -/
theorem c2_chart_selection (d : Dataset) :
    generate_charts (some d)
      = ["overview_dashboard"]
        ++ (if 2 ≤ d.numericCols.length then ["correlation_matrix"] else [])
        ++ (if 1 ≤ d.categoricalCols.length then ["categorical_analysis"] else [])
    ∧ "overview_dashboard" ∈ generate_charts (some d)
    ∧ ("correlation_matrix" ∈ generate_charts (some d) ↔ 2 ≤ d.numericCols.length)
    ∧ ("categorical_analysis" ∈ generate_charts (some d) ↔ 1 ≤ d.categoricalCols.length) := by
  refine ⟨generate_charts_eq d, ?_, ?_, ?_⟩ <;>
    rw [generate_charts_eq d] <;> split_ifs <;> simp_all

lemma generate_pdf_document_length (embed : String → Except Unit Unit)
    (res : AnalysisResults) (title : String) (charts : List String) :
    (generate_pdf_document embed res title charts).length
      = 2 + (charts.length - 1) + (if res.numeric_summary.isSome then 1 else 0) := by
  unfold generate_pdf_document
  rcases hns : res.numeric_summary with _ | ns <;>
    cases charts <;>
      simp [hns, List.length_append, List.length_map] <;> omega

/-- C3: for every analysis result and every ordered chart list, the
document built by `generate_pdf_report` has exactly
`2 + max(0, chartCount - 1) + (1 if the numeric summary is present)`
pages (natural subtraction is `max(0, · - 1)`), and its first page is
the title page. -/
theorem c3_page_count (embed : String → Except Unit Unit) (res : AnalysisResults)
    (title : String) (charts : List String) :
    (generate_pdf_document embed res title charts).length
      = 2 + (charts.length - 1) + (if res.numeric_summary.isSome then 1 else 0)
    ∧ (generate_pdf_document embed res title charts).head? = some (titlePage res title) := by
  refine ⟨generate_pdf_document_length embed res title charts, ?_⟩
  unfold generate_pdf_document
  cases charts <;> rfl

/-- C6 counterexample: a run whose document writer fails.  The source
removes the temporary chart files only after `pdf.output` returns
(REPORT_GEN.py lines 259-265, no `try/finally`), so on the write-failure
path the cleanup loop is never reached — refuting the claim that the
files are removed unconditionally. -/
theorem c6_write_failure_skips_cleanup :
    (generate_pdf_report (fun _ => Except.error ()) (fun _ => Except.ok ())
      resA "Report" []).chartsCleaned = false := rfl

/-- C6 amended: the temporary chart files are removed whenever writing
the output document succeeds; a writer exception propagates before the
cleanup loop. -/
theorem c6_cleanup_after_successful_write (write : List Page → Except Unit Unit)
    (embed : String → Except Unit Unit) (res : AnalysisResults) (title : String)
    (charts : List String)
    (h : write (generate_pdf_document embed res title charts) = Except.ok ()) :
    (generate_pdf_report write embed res title charts).chartsCleaned = true := by
  unfold generate_pdf_report
  simp [h]

/-- Closed witness for the amended C6 with an always-succeeding
writer. -/
theorem c6_cleanup_after_successful_write_witness :
    (fun (_ : List Page) => (Except.ok () : Except Unit Unit))
        (generate_pdf_document (fun _ => Except.ok ()) resA "Report" []) = Except.ok ()
    ∧ (generate_pdf_report (fun _ => Except.ok ()) (fun _ => Except.ok ())
        resA "Report" []).chartsCleaned = true :=
  ⟨rfl, c6_cleanup_after_successful_write _ _ resA "Report" [] rfl⟩

/-- C7 counterexample: a rendering backend whose dtype-pie panel fails.
`generate_charts` has no handler around any panel (REPORT_GEN.py lines
81-167), so the failure aborts the whole chart generation — no
placeholder is drawn and no artifact at all is produced, refuting the
claim that a failing panel is replaced and production continues. -/
theorem c7_panel_failure_aborts :
    generate_charts_render
      (fun p => if p = PanelSpec.dtypePie then Except.error () else Except.ok ())
      wData4 = Except.error () := rfl

lemma notice_mem_chartBlock (embed : String → Except Unit Unit) (c : String)
    (h : embed c = Except.error ()) : Block.notice c ∈ chartBlock embed c := by
  simp [chartBlock, h]

/-- C7 amended: panel rendering failures in `generate_charts` are not
recovered (they abort chart generation, see the counterexample); the
textual-placeholder recovery exists one stage later, in
`generate_pdf_report` (REPORT_GEN.py lines 232-235): a chart image that
cannot be embedded is replaced by a textual notice block and document
assembly continues with an unchanged page structure. -/
theorem c7_embed_failure_recovered (embed : String → Except Unit Unit)
    (res : AnalysisResults) (title : String) (charts : List String) (c : String)
    (hc : c ∈ charts) (he : embed c = Except.error ()) :
    (∃ pg ∈ generate_pdf_document embed res title charts, Block.notice c ∈ pg)
    ∧ (generate_pdf_document embed res title charts).length
        = (generate_pdf_document (fun _ => Except.ok ()) res title charts).length := by
  constructor
  · cases charts with
    | nil => cases hc
    | cons c0 rest =>
      rcases List.mem_cons.mp hc with h0 | hrest
      · subst h0
        refine ⟨overviewBlocks res ++ chartBlock embed c, ?_, ?_⟩
        · unfold generate_pdf_document
          simp
        · exact List.mem_append_right _ (notice_mem_chartBlock embed c he)
      · refine ⟨chartBlock embed c, ?_, notice_mem_chartBlock embed c he⟩
        unfold generate_pdf_document
        exact List.mem_append_left _ (List.mem_append_right _ (List.mem_map_of_mem _ hrest))
  · rw [generate_pdf_document_length, generate_pdf_document_length]

/-- Closed witness for the amended C7: with an embedder that fails on
the overview chart, the document still contains a notice block for it
and has the same number of pages. -/
theorem c7_embed_failure_recovered_witness :
    "overview_dashboard" ∈ ["overview_dashboard"]
    ∧ (fun (_ : String) => (Except.error () : Except Unit Unit)) "overview_dashboard"
        = Except.error ()
    ∧ ((∃ pg ∈ generate_pdf_document (fun _ => Except.error ()) resA "Report"
          ["overview_dashboard"], Block.notice "overview_dashboard" ∈ pg)
        ∧ (generate_pdf_document (fun _ => Except.error ()) resA "Report"
            ["overview_dashboard"]).length
          = (generate_pdf_document (fun _ => Except.ok ()) resA "Report"
              ["overview_dashboard"]).length) :=
  ⟨by simp, rfl,
   c7_embed_failure_recovered _ resA "Report" ["overview_dashboard"]
     "overview_dashboard" (by simp) rfl⟩

/-- C5 (code bug): on the empty dataset of scenario B — zero rows,
three declared object columns — `analyze_data` does succeed with
`total_rows = 0`, absent numeric summary and correlations, and empty
categorical summaries; but chart generation does not complete: with the
actual backend behaviour (`mplRender`: matplotlib's `Axes.table` raises
on the empty `cellText` the code passes for a 0-row preview,
REPORT_GEN.py lines 115-116) `generate_charts` aborts with the
propagated exception, so `generate_pdf_report`, which calls it first
(line 173), never produces pages 1-2. -/
theorem c5_empty_dataset_divergence :
    analyze_data (some eData) = some eRes
    ∧ eRes.basic_stats.total_rows = 0
    ∧ eRes.numeric_summary = none
    ∧ eRes.correlations = none
    ∧ (∀ p ∈ (eRes.categorical_summary.getD []),
        p.2.unique_values = 0 ∧ p.2.top_values = [])
    ∧ generate_charts_render mplRender eData = Except.error () :=
  ⟨by decide, rfl, rfl, rfl, by decide, rfl⟩

lemma topValues_length (c : Column) : c.topValues.length = min 5 c.nunique := by
  unfold Column.topValues Column.valueCounts Column.nunique
  rw [List.length_take, List.length_insertionSort, List.length_map]

lemma topValues_sorted (c : Column) : List.Sorted countGE c.topValues :=
  List.Pairwise.sublist (List.take_sublist 5 _)
    (List.sorted_insertionSort countGE (c.nonNull.dedup.map (fun v => (v, c.nonNull.count v))))

/-- C4: every categorical summary entry produced by `analyze_data` has a
`top_values` sequence of length `min(5, unique_values)` — nulls being
excluded both from `nunique()` and from `value_counts()` — sorted by
occurrence count in descending order. -/
theorem c4_top_values (d : Dataset) (r : AnalysisResults) (nm : String) (s : CatSummary)
    (hr : analyze_data (some d) = some r)
    (hm : (nm, s) ∈ r.categorical_summary.getD []) :
    s.top_values.length = min 5 s.unique_values ∧ List.Sorted countGE s.top_values := by
  have hr' : r.categorical_summary
      = if 0 < d.categoricalCols.length then
          some (d.categoricalCols.map (fun c => (c.name, c.catSummary)))
        else none := by
    have := Option.some.inj hr
    rw [← this]
  rw [hr'] at hm
  by_cases hc : 0 < d.categoricalCols.length
  · rw [if_pos hc] at hm
    simp only [Option.getD_some] at hm
    obtain ⟨c, _, hpair⟩ := List.mem_map.mp hm
    have hs : s = c.catSummary := (congrArg Prod.snd hpair).symm
    subst hs
    exact ⟨topValues_length c, topValues_sorted c⟩
  · rw [if_neg hc] at hm
    simp at hm

/-- Closed witness for C4: the concrete one-categorical-column dataset
`wData4`, whose summary has two distinct values sorted 2 ≥ 1. -/
theorem c4_top_values_witness :
    analyze_data (some wData4) = some wRes4
    ∧ ("cat", wSum4) ∈ wRes4.categorical_summary.getD []
    ∧ (wSum4.top_values.length = min 5 wSum4.unique_values
        ∧ List.Sorted countGE wSum4.top_values) :=
  ⟨by decide, by decide,
   c4_top_values wData4 wRes4 "cat" wSum4 (by decide) (by decide)⟩

lemma pairedVals_swap (a b : List (Option ℚ)) :
    pairedVals b a = (pairedVals a b).map Prod.swap := by
  induction a generalizing b with
  | nil =>
    cases b with
    | nil => rfl
    | cons y s => cases y <;> rfl
  | cons x t ih =>
    cases b with
    | nil => cases x <;> rfl
    | cons y s => cases x <;> cases y <;> simp [pairedVals, ih s]

lemma map_fst_swap (ps : List (ℚ × ℚ)) :
    (ps.map Prod.swap).map Prod.fst = ps.map Prod.snd := by
  simp [List.map_map, Function.comp_def]

lemma map_snd_swap (ps : List (ℚ × ℚ)) :
    (ps.map Prod.swap).map Prod.snd = ps.map Prod.fst := by
  simp [List.map_map, Function.comp_def]

lemma sprod_comm (xs ys : List ℚ) : sprod xs ys = sprod ys xs := by
  unfold sprod
  rw [← List.zip_swap xs ys, List.map_map]
  refine congrArg List.sum (List.map_congr_left (fun p _ => ?_))
  simp [Function.comp_def, mul_comm]

lemma corrOf_swap (ps : List (ℚ × ℚ)) : corrOf (ps.map Prod.swap) = corrOf ps := by
  unfold corrOf
  rw [map_fst_swap, map_snd_swap, sprod_comm (ps.map Prod.snd) (ps.map Prod.fst),
    mul_comm (((sprod (ps.map Prod.snd) (ps.map Prod.snd) : ℚ) : ℝ))
      (((sprod (ps.map Prod.fst) (ps.map Prod.fst) : ℚ) : ℝ))]

lemma pairedVals_self (a : List (Option ℚ)) :
    pairedVals a a = (a.filterMap id).map (fun q => (q, q)) := by
  induction a with
  | nil => rfl
  | cons x t ih => cases x <;> simp [pairedVals, ih]

lemma map_dup_fst (v : List ℚ) : ((v.map (fun q => (q, q))).map Prod.fst) = v := by
  simp [List.map_map, Function.comp_def]

lemma map_dup_snd (v : List ℚ) : ((v.map (fun q => (q, q))).map Prod.snd) = v := by
  simp [List.map_map, Function.comp_def]

lemma mem_zip_self {xs : List ℚ} {p : ℚ × ℚ} (hp : p ∈ xs.zip xs) : p.1 = p.2 := by
  induction xs with
  | nil => cases hp
  | cons x t ih =>
    rw [List.zip_cons_cons] at hp
    rcases List.mem_cons.mp hp with h | h
    · rw [h]
    · exact ih h

lemma sprod_self_nonneg (xs : List ℚ) : 0 ≤ sprod xs xs := by
  unfold sprod
  apply List.sum_nonneg
  intro y hy
  obtain ⟨p, hp, rfl⟩ := List.mem_map.mp hy
  rw [mem_zip_self hp]
  exact mul_self_nonneg _

lemma corr_symm (a b : List (Option ℚ)) : corr a b = corr b a := by
  unfold corr
  rw [pairedVals_swap a b, corrOf_swap]

lemma corr_self (a : List (Option ℚ))
    (h : sprod (a.filterMap id) (a.filterMap id) ≠ 0) : corr a a = 1 := by
  unfold corr
  rw [pairedVals_self]
  unfold corrOf
  rw [map_dup_fst, map_dup_snd]
  have h0 : (0 : ℝ) ≤ ((sprod (a.filterMap id) (a.filterMap id) : ℚ) : ℝ) := by
    exact_mod_cast sprod_self_nonneg (a.filterMap id)
  rw [Real.sqrt_mul_self h0]
  exact div_self (by exact_mod_cast h)

/-- C8: for every dataset with at least two numeric columns (so that
`analyze_data` records the correlation matrix), the Pearson matrix
computed pairwise over jointly non-null rows is symmetric, and each
diagonal entry of a numeric column with nonzero variance (nonzero sum
of squared deviations) equals 1. -/
theorem c8_correlation_matrix (d : Dataset) (_h : 2 ≤ d.numericCols.length) :
    (∀ i j, corrEntry d i j = corrEntry d j i)
    ∧ (∀ i, (d.numericCols.getD i defaultCol).devSq ≠ 0 → corrEntry d i i = 1) :=
  ⟨fun _ _ => corr_symm _ _, fun _ hv => corr_self _ hv⟩

/-- Closed witness for C8 at the concrete two-numeric-column dataset
`wData8`. -/
theorem c8_correlation_matrix_witness :
    2 ≤ wData8.numericCols.length
    ∧ ((∀ i j, corrEntry wData8 i j = corrEntry wData8 j i)
        ∧ (∀ i, (wData8.numericCols.getD i defaultCol).devSq ≠ 0 →
            corrEntry wData8 i i = 1)) :=
  ⟨by decide, c8_correlation_matrix wData8 (by decide)⟩

/-- C9: ingesting a path whose (lowercased, dot-split) extension is none
of csv, xlsx, xls, json with the default `auto` format makes `load_data`
hit the `raise ValueError` branch, which the catch-all turns into
`return False`, and `self.data` is left exactly as it was — in
particular, a generator whose dataset was absent still has no dataset.
This holds for every file reader, even one that would parse the file
successfully. -/
theorem c9_unsupported_extension (parse : String → String → Except Unit Dataset)
    (st : Option Dataset) (path : String)
    (h : resolveType path "auto" ∉ ["csv", "xlsx", "xls", "json"]) :
    load_data parse st path "auto" = (false, st) := by
  unfold load_data
  rw [if_neg]
  simpa using h

/-- Closed witness for C9: the extension "txt" is not recognized, so
even an always-succeeding reader produces no dataset. -/
theorem c9_unsupported_extension_witness :
    resolveType "data.txt" "auto" ∉ ["csv", "xlsx", "xls", "json"]
    ∧ load_data (fun _ _ => Except.ok ⟨[], 0⟩) none "data.txt" "auto" = (false, none) :=
  ⟨by decide,
   c9_unsupported_extension (fun _ _ => Except.ok ⟨[], 0⟩) none "data.txt" (by decide)⟩

/-- C10: `load_data` is modelled as a total function (its Python body is
wrapped in a catch-all `try/except` that converts every exception into
`return False`), and on every failing call — unsupported resolved type
or reader exception, for any path, declared format, reader and prior
state — the stored dataset is exactly the one from before the call. -/
theorem c10_load_failure_atomic (parse : String → String → Except Unit Dataset)
    (st : Option Dataset) (path ftype : String)
    (h : (load_data parse st path ftype).1 = false) :
    (load_data parse st path ftype).2 = st := by
  unfold load_data at h ⊢
  by_cases hc : resolveType path ftype = "csv" ∨ resolveType path ftype = "xlsx"
      ∨ resolveType path ftype = "xls" ∨ resolveType path ftype = "json"
  · rw [if_pos hc] at h ⊢
    cases hp : parse (resolveType path ftype) path with
    | error e => rfl
    | ok d =>
      rw [hp] at h
      exact Bool.noConfusion h
  · rw [if_neg hc]

/-- Closed witness for C10: a reader that fails on a recognized csv
path reports failure and leaves the absent dataset absent. -/
theorem c10_load_failure_atomic_witness :
    (load_data (fun _ _ => Except.error ()) none "a.csv" "csv").1 = false
    ∧ (load_data (fun _ _ => Except.error ()) none "a.csv" "csv").2 = none :=
  ⟨rfl, c10_load_failure_atomic (fun _ _ => Except.error ()) none "a.csv" "csv" rfl⟩

end ReportGen
